import Mathlib

/-!
Verification of the damage-tracking and repaint-scheduling core of
src/clutter/clutter-stage.c (Clutter 0.8, maemo fork).

The embedding models the stage geometry, the pending-damage rectangle, the
damage history, `clutter_stage_set_damaged_area`, the damage-resolution part
of `clutter_stage_paint` (both the buffer-age path and the DOUBLE_BUFFER
fallback path), and the repaint scheduler
(`clutter_stage_queue_redraw`, `clutter_stage_queue_redraw_damage`,
`redraw_update_idle`, `clutter_stage_dispose`).
-/

namespace Clutter

/-- Modelled from the spec: the `ClutterGeometry` rectangle type (its declaring
header is not among the sources; spec section 3 describes a Rectangle as
integer fields x, y, width, height, axis-aligned, in surface pixel space,
where any non-positive dimension denotes the invalid/empty sentinel). -/
structure ClutterGeometry where
  x : Int
  y : Int
  width : Int
  height : Int
deriving DecidableEq

/-- The invalid/empty rectangle sentinel, as written by the C code when it
invalidates the damaged area (all four fields set to 0). -/
def geomZero : ClutterGeometry := ⟨0, 0, 0, 0⟩

/-- A rectangle is valid when both dimensions are positive (spec section 3). -/
def validG (g : ClutterGeometry) : Prop := g.width > 0 ∧ g.height > 0

instance (g : ClutterGeometry) : Decidable (validG g) := by
  unfold validG; infer_instance

/-- Axis-aligned containment: `outer` encloses `inner`. -/
def containsG (outer inner : ClutterGeometry) : Prop :=
  outer.x ≤ inner.x ∧ outer.y ≤ inner.y ∧
  inner.x + inner.width ≤ outer.x + outer.width ∧
  inner.y + inner.height ≤ outer.y + outer.height

instance (outer inner : ClutterGeometry) : Decidable (containsG outer inner) := by
  unfold containsG; infer_instance

/-- A rectangle covers the whole w-by-h surface exactly in the sense tested by
clutter_stage_paint (lines 357-359): x at or left of 0, y at or above 0,
width at least the surface width, height at least the surface height. -/
def coversSurface (w h : Int) (d : ClutterGeometry) : Prop :=
  d.x ≤ 0 ∧ d.y ≤ 0 ∧ d.width ≥ w ∧ d.height ≥ h

instance (w h : Int) (d : ClutterGeometry) : Decidable (coversSurface w h d) := by
  unfold coversSurface; infer_instance

/-- The clip-to-screen part of clutter_stage_set_damaged_area
(clutter-stage.c lines 2209-2230), on a w-by-h stage. -/
def clipToScreen (w h : Int) (area : ClutterGeometry) : ClutterGeometry :=
  let a1 := if area.x < 0 then { area with width := area.width + area.x, x := 0 } else area
  let a2 := if a1.y < 0 then { a1 with height := a1.height + a1.y, y := 0 } else a1
  let a3 := if a2.x > w ∨ a2.y > h then geomZero else a2
  let a4 := if a3.x + a3.width > w then { a3 with width := w - a3.x } else a3
  let a5 := if a4.y + a4.height > h then { a4 with height := h - a4.y } else a4
  a5

/-- The expand-pending part of clutter_stage_set_damaged_area
(clutter-stage.c lines 2243-2268): grow the pending rectangle to the
smallest rectangle enclosing both it and `area`. -/
def expandDamage (pend area : ClutterGeometry) : ClutterGeometry :=
  let p1 := if area.x < pend.x then
      { pend with width := pend.width + (pend.x - area.x), x := area.x } else pend
  let p2 := if area.y < p1.y then
      { p1 with height := p1.height + (p1.y - area.y), y := area.y } else p1
  let p3 := if area.x + area.width > p2.x + p2.width then
      { p2 with width := (area.x + area.width) - p2.x } else p2
  let p4 := if area.y + area.height > p3.y + p3.height then
      { p3 with height := (area.y + area.height) - p3.y } else p3
  p4

/-- clutter_stage_set_damaged_area (clutter-stage.c lines 2192-2268): given the
stage size w-by-h and the current pending damaged area `pend`, process a
newly damaged rectangle `area` and return the new pending damaged area.
A non-positive input dimension invalidates the pending area; otherwise the
input is clipped to the screen, discarded if the clip is empty, and either
replaces an invalid pending area or expands a valid one. -/
def clutter_stage_set_damaged_area (w h : Int) (pend area : ClutterGeometry) :
    ClutterGeometry :=
  if area.width ≤ 0 ∨ area.height ≤ 0 then geomZero
  else
    let a := clipToScreen w h area
    if a.width ≤ 0 ∨ a.height ≤ 0 then pend
    else if pend.width ≤ 0 ∨ pend.height ≤ 0 then a
    else expandDamage pend a

/-- The damage-relevant stage state: the pending damaged area and the damage
history list (most recent first), as held in ClutterStagePrivate. -/
structure StageState where
  damaged_area : ClutterGeometry
  damage_history : List ClutterGeometry
deriving DecidableEq

/-- MAX_BUFFER_AGE (clutter-stage.c line 104). -/
def MAX_BUFFER_AGE : Nat := 2

/-- The merge-and-truncate loop of clutter_stage_paint (lines 302-320): walk
the history entries after the freshly prepended head with counter i starting
at 0; merge each entry at position i < age into the pending area via
clutter_stage_set_damaged_area; after incrementing i, once i exceeds
MAX_BUFFER_AGE, free the rest of the list and stop. Returns the final
pending area and the list of history entries kept. -/
def damageMergeLoop (w h : Int) (age : Nat) :
    Nat → ClutterGeometry → List ClutterGeometry →
    ClutterGeometry × List ClutterGeometry
  | _, pend, [] => (pend, [])
  | i, pend, d :: rest =>
    let pend1 := if i < age then clutter_stage_set_damaged_area w h pend d else pend
    if i + 1 > MAX_BUFFER_AGE then (pend1, [d])
    else
      let r := damageMergeLoop w h age (i + 1) pend1 rest
      (r.1, d :: r.2)

/-- The update_area decision of clutter_stage_paint (lines 353-360): redraw
only the damaged area when it is valid, except that a damaged area covering
the whole w-by-h surface falls back to a full redraw (is_full is the
negation of update_area). -/
def updateArea (w h : Int) (d : ClutterGeometry) : Bool :=
  if d.x ≤ 0 ∧ d.y ≤ 0 ∧ d.width ≥ w ∧ d.height ≥ h then false
  else decide (d.width > 0 ∧ d.height > 0)

/-- Result of one paint: the stage state after the frame, the update_area
flag (false means full redraw with no scissor/clip), and the resolved
damaged area the frame was drawn with. -/
structure PaintResult where
  state : StageState
  update_area : Bool
  resolved : ClutterGeometry
deriving DecidableEq

/-- The damage-resolution portion of clutter_stage_paint (lines 285-338 and
353-360 and 429-432) on the buffer-age path (CLUTTER_FEATURE_BUFFER_AGE
available), for reported buffer age `age`: prepend a copy of the pending
damaged area to the history; if age is nonzero and the new history is longer
than age, merge past entries via damageMergeLoop; if age is nonzero but the
history is not longer than age, invalidate the damaged area (full redraw);
if age is zero, free the whole history. Then compute update_area and reset
the pending damaged area to the invalid rectangle. -/
def clutter_stage_paint (w h : Int) (age : Nat) (s : StageState) : PaintResult :=
  let resolveStep : ClutterGeometry × List ClutterGeometry :=
    if age ≠ 0 then
      if s.damage_history.length + 1 > age then
        let r := damageMergeLoop w h age 0 s.damaged_area s.damage_history
        (r.1, s.damaged_area :: r.2)
      else (geomZero, s.damaged_area :: s.damage_history)
    else (s.damaged_area, [])
  { state := { damaged_area := geomZero, damage_history := resolveStep.2 },
    update_area := updateArea w h resolveStep.1,
    resolved := resolveStep.1 }

/-- The damage-resolution portion of clutter_stage_paint on the DOUBLE_BUFFER
fallback path (lines 340-351, feature unavailable): read the head history
entry without any check (none when the history is empty, modelling the C
null dereference), merge it into the pending area, overwrite the head entry
in place with the merged (resolved) area, then compute update_area and reset
the pending damaged area. -/
def clutter_stage_paint_db (w h : Int) (s : StageState) : Option PaintResult :=
  match s.damage_history with
  | [] => none
  | d :: rest =>
    let pend := clutter_stage_set_damaged_area w h s.damaged_area d
    some { state := { damaged_area := geomZero, damage_history := pend :: rest },
           update_area := updateArea w h pend,
           resolved := pend }

/-- The damage-relevant part of clutter_stage_init on the DOUBLE_BUFFER
fallback path (lines 943-955): pending damage invalid, and the history
created already holding one copy of the (invalid) damaged area. -/
def clutter_stage_init_db : StageState :=
  { damaged_area := geomZero, damage_history := [geomZero] }

/-- Stage states reachable in the DOUBLE_BUFFER fallback mode from
initialization via the damage-relevant operations: marking a damaged area
(clutter_stage_set_damaged_area), overwriting the damaged area with the
stage geometry (clutter_stage_queue_redraw line 2062), and painting. -/
inductive ReachableDB (w h : Int) : StageState → Prop
  | init : ReachableDB w h clutter_stage_init_db
  | set_damaged (s : StageState) (area : ClutterGeometry) :
      ReachableDB w h s →
      ReachableDB w h
        { s with damaged_area := clutter_stage_set_damaged_area w h s.damaged_area area }
  | queue_full (s : StageState) (g : ClutterGeometry) :
      ReachableDB w h s →
      ReachableDB w h { s with damaged_area := g }
  | paint (s : StageState) (r : PaintResult) :
      ReachableDB w h s →
      clutter_stage_paint_db w h s = some r →
      ReachableDB w h r.state

/-- Scheduler-relevant stage state: whether an update_idle callback handle is
outstanding, whether the actor carries CLUTTER_ACTOR_IN_DESTRUCTION, the
shaped_mode field, the pending damaged area and the stage geometry. -/
structure SchedState where
  update_idle : Bool
  in_destruction : Bool
  shaped_mode : Int
  damaged_area : ClutterGeometry
  geometry : ClutterGeometry
deriving DecidableEq

/-- clutter_stage_queue_redraw_damage (lines 2093-2124): if no update_idle
callback is outstanding, install one (timeout or idle, both modelled as one
outstanding handle). Returns the new state and whether a callback was
created by this call. -/
def clutter_stage_queue_redraw_damage (s : SchedState) : SchedState × Bool :=
  if s.update_idle then (s, false)
  else ({ s with update_idle := true }, true)

/-- clutter_stage_queue_redraw (lines 2052-2076): a no-op on a stage in
destruction; otherwise set the damaged area to the whole stage geometry and
install an update_idle callback if none is outstanding. Returns the new
state and whether a callback was created by this call. -/
def clutter_stage_queue_redraw (s : SchedState) : SchedState × Bool :=
  if s.in_destruction then (s, false)
  else
    let s1 := { s with damaged_area := s.geometry }
    if s1.update_idle then (s1, false)
    else ({ s1 with update_idle := true }, true)

/-- redraw_update_idle (lines 2019-2039): remove the outstanding handle, then
invoke clutter_redraw unless shaped_mode is set. Returns the new state and
whether the render loop (clutter_redraw) was invoked. -/
def redraw_update_idle (s : SchedState) : SchedState × Bool :=
  let s1 := { s with update_idle := false }
  if s1.shaped_mode ≠ 0 then (s1, false) else (s1, true)

/-- The scheduler-relevant part of clutter_stage_dispose (lines 650-678):
remove any outstanding update_idle source; the object is in destruction
(CLUTTER_ACTOR_IN_DESTRUCTION is set by clutter_actor_destroy before
dispose runs and stays set). -/
def clutter_stage_dispose (s : SchedState) : SchedState :=
  { s with update_idle := false, in_destruction := true }

/-- Run n consecutive calls of clutter_stage_queue_redraw_damage, returning
the final state and how many deferred callbacks were created in total. -/
def runDamageCalls : Nat → SchedState → SchedState × Nat
  | 0, s => (s, 0)
  | n + 1, s =>
    let r := clutter_stage_queue_redraw_damage s
    let rest := runDamageCalls n r.1
    (rest.1, (if r.2 then 1 else 0) + rest.2)

/-- Events the cooperative event loop can deliver to a stage after some point:
a clutter_stage_queue_redraw call, or a dispatch opportunity for the
update_idle source (which only runs the callback when a handle is
outstanding). -/
inductive PostEvent where
  | queueRedraw : PostEvent
  | dispatchIdle : PostEvent
deriving DecidableEq

/-- Run a sequence of post events, returning the final state and the number
of render-loop (clutter_redraw) invocations that occurred. -/
def runPostEvents : SchedState → List PostEvent → SchedState × Nat
  | s, [] => (s, 0)
  | s, PostEvent.queueRedraw :: evs =>
      runPostEvents (clutter_stage_queue_redraw s).1 evs
  | s, PostEvent.dispatchIdle :: evs =>
      if s.update_idle then
        let r := redraw_update_idle s
        let rest := runPostEvents r.1 evs
        (rest.1, (if r.2 then 1 else 0) + rest.2)
      else runPostEvents s evs

/-! ## Helper lemmas -/

theorem updateArea_geomZero (w h : Int) : updateArea w h geomZero = false := by
  unfold updateArea geomZero
  split_ifs <;> simp

theorem clip_nonpos_width (w h : Int) (area : ClutterGeometry)
    (ha : area.width ≤ 0) : (clipToScreen w h area).width ≤ 0 := by
  obtain ⟨ax, ay, aw, ah⟩ := area
  simp only [clipToScreen, geomZero] at *
  split_ifs <;> simp_all <;> omega

theorem clip_nonpos_height (w h : Int) (area : ClutterGeometry)
    (ha : area.height ≤ 0) : (clipToScreen w h area).height ≤ 0 := by
  obtain ⟨ax, ay, aw, ah⟩ := area
  simp only [clipToScreen, geomZero] at *
  split_ifs <;> simp_all <;> omega

theorem set_damaged_area_of_invalid (w h : Int) (pend area : ClutterGeometry)
    (hinv : area.width ≤ 0 ∨ area.height ≤ 0) :
    clutter_stage_set_damaged_area w h pend area = geomZero := by
  unfold clutter_stage_set_damaged_area
  exact if_pos hinv

theorem set_damaged_area_of_clip_valid (w h : Int) (pend area : ClutterGeometry)
    (hv : validG (clipToScreen w h area)) :
    clutter_stage_set_damaged_area w h pend area =
      if pend.width ≤ 0 ∨ pend.height ≤ 0 then clipToScreen w h area
      else expandDamage pend (clipToScreen w h area) := by
  obtain ⟨hcw, hch⟩ := hv
  have hain : ¬ (area.width ≤ 0 ∨ area.height ≤ 0) := by
    rintro (ha | ha)
    · have := clip_nonpos_width w h area ha; omega
    · have := clip_nonpos_height w h area ha; omega
  have hcv : ¬ ((clipToScreen w h area).width ≤ 0 ∨
      (clipToScreen w h area).height ≤ 0) := by
    rintro (hc | hc) <;> omega
  unfold clutter_stage_set_damaged_area
  rw [if_neg hain]
  show (if (clipToScreen w h area).width ≤ 0 ∨ (clipToScreen w h area).height ≤ 0
      then pend
      else if pend.width ≤ 0 ∨ pend.height ≤ 0 then clipToScreen w h area
      else expandDamage pend (clipToScreen w h area)) = _
  rw [if_neg hcv]

theorem containsG_expand_left (p a : ClutterGeometry) :
    containsG (expandDamage p a) p := by
  obtain ⟨px, py, pw, ph⟩ := p
  obtain ⟨ax, ay, aw, ah⟩ := a
  simp only [containsG, expandDamage]
  split_ifs <;> simp_all <;> omega

theorem containsG_expand_right (p a : ClutterGeometry) :
    containsG (expandDamage p a) a := by
  obtain ⟨px, py, pw, ph⟩ := p
  obtain ⟨ax, ay, aw, ah⟩ := a
  simp only [containsG, expandDamage]
  split_ifs <;> simp_all

theorem containsG_expand_least (R p a : ClutterGeometry)
    (hp : containsG R p) (ha : containsG R a) :
    containsG R (expandDamage p a) := by
  obtain ⟨Rx, Ry, Rw, Rh⟩ := R
  obtain ⟨px, py, pw, ph⟩ := p
  obtain ⟨ax, ay, aw, ah⟩ := a
  simp only [containsG, expandDamage] at *
  split_ifs <;> simp_all <;> omega

theorem validG_expand (p a : ClutterGeometry) (hp : validG p) (ha : validG a) :
    validG (expandDamage p a) := by
  obtain ⟨px, py, pw, ph⟩ := p
  obtain ⟨ax, ay, aw, ah⟩ := a
  simp only [validG, expandDamage] at *
  split_ifs <;> simp_all <;> omega

theorem containsG_covers (w h : Int) (q p : ClutterGeometry)
    (hc : containsG q p) (hp : coversSurface w h p) : coversSurface w h q := by
  obtain ⟨qx, qy, qw, qh⟩ := q
  obtain ⟨px, py, pw, ph⟩ := p
  simp only [containsG, coversSurface] at *
  omega

theorem updateArea_of_covers (w h : Int) (d : ClutterGeometry)
    (hc : coversSurface w h d) : updateArea w h d = false := by
  unfold coversSurface at hc
  unfold updateArea
  rw [if_pos hc]

theorem containsG_refl (g : ClutterGeometry) : containsG g g :=
  ⟨le_refl _, le_refl _, le_refl _, le_refl _⟩

theorem containsG_trans (a b c : ClutterGeometry)
    (hab : containsG a b) (hbc : containsG b c) : containsG a c := by
  obtain ⟨ax, ay, aw, ah⟩ := a
  obtain ⟨bx, by', bw, bh⟩ := b
  obtain ⟨cx, cy, cw, ch⟩ := c
  simp only [containsG] at *
  omega

theorem validG_not_invalid (p : ClutterGeometry) (hp : validG p) :
    ¬ (p.width ≤ 0 ∨ p.height ≤ 0) := by
  obtain ⟨h1, h2⟩ := hp
  rintro (hc | hc) <;> omega

theorem set_damaged_area_valid_valid (w h : Int) (pend area : ClutterGeometry)
    (hp : validG pend) (hv : validG (clipToScreen w h area)) :
    clutter_stage_set_damaged_area w h pend area =
      expandDamage pend (clipToScreen w h area) := by
  rw [set_damaged_area_of_clip_valid w h pend area hv,
    if_neg (validG_not_invalid pend hp)]

theorem set_damaged_area_invalid_pend (w h : Int) (pend area : ClutterGeometry)
    (hp : pend.width ≤ 0 ∨ pend.height ≤ 0) (hv : validG (clipToScreen w h area)) :
    clutter_stage_set_damaged_area w h pend area = clipToScreen w h area := by
  rw [set_damaged_area_of_clip_valid w h pend area hv, if_pos hp]

/-- Folding clutter_stage_set_damaged_area over a list of damaged rectangles
whose clips are all valid, starting from a valid pending rectangle, yields
the bounding box of the start rectangle and all the clips: it is valid,
contains the start rectangle and every clip, and is contained in every
rectangle that contains the start rectangle and every clip. -/
theorem foldl_set_damaged_props (w h : Int) (rs : List ClutterGeometry) :
    ∀ p : ClutterGeometry, validG p →
    (∀ r ∈ rs, validG (clipToScreen w h r)) →
    validG (rs.foldl (clutter_stage_set_damaged_area w h) p) ∧
    containsG (rs.foldl (clutter_stage_set_damaged_area w h) p) p ∧
    (∀ r ∈ rs,
      containsG (rs.foldl (clutter_stage_set_damaged_area w h) p)
        (clipToScreen w h r)) ∧
    (∀ R : ClutterGeometry, containsG R p →
      (∀ r ∈ rs, containsG R (clipToScreen w h r)) →
      containsG R (rs.foldl (clutter_stage_set_damaged_area w h) p)) := by
  induction rs with
  | nil =>
    intro p hp _
    exact ⟨hp, containsG_refl p, by simp, fun R hR _ => hR⟩
  | cons r rest ih =>
    intro p hp hclips
    have hcr : validG (clipToScreen w h r) := hclips r (by simp)
    have hrest : ∀ x ∈ rest, validG (clipToScreen w h x) :=
      fun x hx => hclips x (by simp [hx])
    have hq : validG (expandDamage p (clipToScreen w h r)) :=
      validG_expand _ _ hp hcr
    obtain ⟨iv, icontp, icontall, ileast⟩ :=
      ih (expandDamage p (clipToScreen w h r)) hq hrest
    rw [List.foldl_cons, set_damaged_area_valid_valid w h p r hp hcr]
    refine ⟨iv, ?_, ?_, ?_⟩
    · exact containsG_trans _ _ _ icontp (containsG_expand_left p _)
    · intro x hx
      rcases List.mem_cons.mp hx with hx0 | hx1
      · subst hx0
        exact containsG_trans _ _ _ icontp (containsG_expand_right p _)
      · exact icontall x hx1
    · intro R hRp hRall
      refine ileast R ?_ (fun x hx => hRall x (List.mem_cons_of_mem _ hx))
      exact containsG_expand_least R _ _ hRp (hRall r (by simp))

/-- If the pending rectangle covers the whole surface of a stage with positive
dimensions, then after any clutter_stage_set_damaged_area call the pending
rectangle still covers the whole surface, unless the call invalidated it. -/
theorem set_damaged_area_cover_cases (w h : Int) (pend area : ClutterGeometry)
    (hw : 0 < w) (hh : 0 < h) (hcov : coversSurface w h pend) :
    coversSurface w h (clutter_stage_set_damaged_area w h pend area) ∨
    clutter_stage_set_damaged_area w h pend area = geomZero := by
  by_cases hinv : area.width ≤ 0 ∨ area.height ≤ 0
  · right
    exact set_damaged_area_of_invalid w h pend area hinv
  · by_cases hce : (clipToScreen w h area).width ≤ 0 ∨
        (clipToScreen w h area).height ≤ 0
    · left
      unfold clutter_stage_set_damaged_area
      rw [if_neg hinv]
      show coversSurface w h
        (if (clipToScreen w h area).width ≤ 0 ∨ (clipToScreen w h area).height ≤ 0
         then pend
         else if pend.width ≤ 0 ∨ pend.height ≤ 0 then clipToScreen w h area
         else expandDamage pend (clipToScreen w h area))
      rw [if_pos hce]
      exact hcov
    · left
      have hcv : validG (clipToScreen w h area) := by
        unfold validG
        push_neg at hce
        omega
      have hpv : validG pend := by
        obtain ⟨h1, h2, h3, h4⟩ := hcov
        exact ⟨by omega, by omega⟩
      rw [set_damaged_area_valid_valid w h pend area hpv hcv]
      exact containsG_covers w h _ pend (containsG_expand_left pend _) hcov

theorem damageMergeLoop_fst_of_le (w h : Int) (age : Nat) :
    ∀ (l : List ClutterGeometry) (i : Nat) (pend : ClutterGeometry), age ≤ i →
    (damageMergeLoop w h age i pend l).1 = pend := by
  intro l
  induction l with
  | nil => intro i pend _; rfl
  | cons d rest ih =>
    intro i pend hle
    have hni : ¬ i < age := by omega
    unfold damageMergeLoop
    simp only [hni, if_false]
    split
    · rfl
    · exact ih (i + 1) pend (by omega)

/-- At reported buffer age 1, the merge loop merges exactly the most recent
past-frame entry into the pending rectangle. -/
theorem damageMergeLoop_age_one (w h : Int) (pend d : ClutterGeometry)
    (rest : List ClutterGeometry) :
    (damageMergeLoop w h 1 0 pend (d :: rest)).1 =
      clutter_stage_set_damaged_area w h pend d := by
  unfold damageMergeLoop
  norm_num [MAX_BUFFER_AGE]
  exact damageMergeLoop_fst_of_le w h 1 rest 1 _ (le_refl 1)

/-! ## Claim theorems -/

/-- Claim C1, counterexample: on an 800x600 stage with pending damage
{10,10,50,50} and empty history, a paint with reported buffer age 0 clears
the history but still performs a partial (update_area) repaint, so
is_full = true does not hold. -/
theorem paint_age_zero_partial_cex :
    (clutter_stage_paint 800 600 0 ⟨⟨10, 10, 50, 50⟩, []⟩).update_area = true ∧
    (clutter_stage_paint 800 600 0 ⟨⟨10, 10, 50, 50⟩, []⟩).state.damage_history = [] := by
  constructor <;> rfl

/-- Claim C1, amended: a paint with reported buffer age 0 discards all
damage-history entries, but leaves the pending damage rectangle in force for
the frame: the frame is resolved against the pending rectangle unchanged, so
a full repaint happens only when that rectangle itself demands one. -/
theorem paint_age_zero_clears_history (w h : Int) (s : StageState) :
    (clutter_stage_paint w h 0 s).state.damage_history = [] ∧
    (clutter_stage_paint w h 0 s).resolved = s.damaged_area ∧
    (clutter_stage_paint w h 0 s).update_area = updateArea w h s.damaged_area ∧
    (clutter_stage_paint w h 0 s).state.damaged_area = geomZero := by
  unfold clutter_stage_paint
  simp

/-- Claim C2, counterexample: on an 800x600 stage with pending {10,10,50,50},
history [{100,100,20,20}] and buffer age 1, the frame is drawn with the
resolved rectangle {10,10,110,110}, but the history entry left for the frame
is the raw pending rectangle {10,10,50,50}, not the resolved one. -/
theorem paint_history_head_not_resolved_cex :
    (clutter_stage_paint 800 600 1
        ⟨⟨10, 10, 50, 50⟩, [⟨100, 100, 20, 20⟩]⟩).resolved = ⟨10, 10, 110, 110⟩ ∧
    (clutter_stage_paint 800 600 1
        ⟨⟨10, 10, 50, 50⟩, [⟨100, 100, 20, 20⟩]⟩).state.damage_history.head? =
      some ⟨10, 10, 50, 50⟩ ∧
    (clutter_stage_paint 800 600 1
        ⟨⟨10, 10, 50, 50⟩, [⟨100, 100, 20, 20⟩]⟩).state.damage_history.head? ≠
      some (clutter_stage_paint 800 600 1
        ⟨⟨10, 10, 50, 50⟩, [⟨100, 100, 20, 20⟩]⟩).resolved := by
  refine ⟨rfl, rfl, ?_⟩
  decide

/-- Claim C2, amended: on the buffer-age path (age nonzero) the history entry
left for the frame is the raw pending rectangle captured before resolution
(at age 0 no entry is left at all); only the double-buffer fallback path
overwrites its history slot with the resolved rectangle. On both paths the
pending damage rectangle is reset to the invalid rectangle at end of paint. -/
theorem paint_history_head_and_pending_reset :
    (∀ (w h : Int) (age : Nat) (s : StageState), age ≠ 0 →
      (clutter_stage_paint w h age s).state.damage_history.head? =
        some s.damaged_area ∧
      (clutter_stage_paint w h age s).state.damaged_area = geomZero) ∧
    (∀ (w h : Int) (s : StageState) (r : PaintResult),
      clutter_stage_paint_db w h s = some r →
      r.state.damage_history.head? = some r.resolved ∧
      r.state.damaged_area = geomZero) := by
  constructor
  · intro w h age s hage
    unfold clutter_stage_paint
    simp only [hage, if_true, ne_eq, not_false_iff]
    split <;> simp
  · intro w h s r hr
    unfold clutter_stage_paint_db at hr
    cases hh : s.damage_history with
    | nil => rw [hh] at hr; exact absurd hr (by simp)
    | cons d rest =>
      rw [hh] at hr
      simp only [Option.some.injEq] at hr
      subst hr
      simp

/-- Claim C2 witness: the amended statement applied on an 800x600 stage, at
buffer age 1 with pending {10,10,50,50} and history [{100,100,20,20}] for the
buffer-age path, and to the concrete fallback paint of the same state. -/
theorem paint_history_head_and_pending_reset_witness :
    ((clutter_stage_paint 800 600 1
        ⟨⟨10, 10, 50, 50⟩, [⟨100, 100, 20, 20⟩]⟩).state.damage_history.head? =
      some (⟨⟨10, 10, 50, 50⟩, [⟨100, 100, 20, 20⟩]⟩ : StageState).damaged_area ∧
     (clutter_stage_paint 800 600 1
        ⟨⟨10, 10, 50, 50⟩, [⟨100, 100, 20, 20⟩]⟩).state.damaged_area = geomZero) ∧
    ((⟨⟨geomZero, [⟨10, 10, 110, 110⟩]⟩, true, ⟨10, 10, 110, 110⟩⟩ :
        PaintResult).state.damage_history.head? =
      some (⟨⟨geomZero, [⟨10, 10, 110, 110⟩]⟩, true, ⟨10, 10, 110, 110⟩⟩ :
        PaintResult).resolved ∧
     (⟨⟨geomZero, [⟨10, 10, 110, 110⟩]⟩, true, ⟨10, 10, 110, 110⟩⟩ :
        PaintResult).state.damaged_area = geomZero) :=
  ⟨paint_history_head_and_pending_reset.1 800 600 1
      ⟨⟨10, 10, 50, 50⟩, [⟨100, 100, 20, 20⟩]⟩ (by decide),
   paint_history_head_and_pending_reset.2 800 600
      ⟨⟨10, 10, 50, 50⟩, [⟨100, 100, 20, 20⟩]⟩
      ⟨⟨geomZero, [⟨10, 10, 110, 110⟩]⟩, true, ⟨10, 10, 110, 110⟩⟩ (by decide)⟩

/-- Claim C4: painting with reported buffer age at least 1 while the damage
history holds fewer than age past-frame entries invalidates the damaged area
and performs a full redraw (update_area = false, resolved area invalid). -/
theorem paint_short_history_full_redraw (w h : Int) (age : Nat) (s : StageState)
    (h1 : 1 ≤ age) (h2 : s.damage_history.length < age) :
    (clutter_stage_paint w h age s).update_area = false ∧
    (clutter_stage_paint w h age s).resolved = geomZero := by
  have hne : age ≠ 0 := by omega
  have hlen : ¬ (s.damage_history.length + 1 > age) := by omega
  unfold clutter_stage_paint
  simp only [hne, ne_eq, not_false_iff, if_true, hlen, if_false]
  exact ⟨updateArea_geomZero w h, trivial⟩

/-- Claim C4 witness: buffer age 2 with a single-entry history on an 800x600
stage forces the full redraw. -/
theorem paint_short_history_full_redraw_witness :
    1 ≤ 2 ∧
    (⟨⟨10, 10, 50, 50⟩, [⟨1, 1, 2, 2⟩]⟩ : StageState).damage_history.length < 2 ∧
    ((clutter_stage_paint 800 600 2
        ⟨⟨10, 10, 50, 50⟩, [⟨1, 1, 2, 2⟩]⟩).update_area = false ∧
     (clutter_stage_paint 800 600 2
        ⟨⟨10, 10, 50, 50⟩, [⟨1, 1, 2, 2⟩]⟩).resolved = geomZero) :=
  ⟨by decide, by decide,
   paint_short_history_full_redraw 800 600 2 ⟨⟨10, 10, 50, 50⟩, [⟨1, 1, 2, 2⟩]⟩
     (by decide) (by decide)⟩

/-- Claim C6, counterexample: with pending damage {1,1,2,2} on an 800x600
stage, passing the zero-width rectangle {5,5,0,10} to
clutter_stage_set_damaged_area changes the pending rectangle (it is cleared
to the invalid rectangle), so the call is not a no-op. -/
theorem set_damaged_area_invalid_not_noop_cex :
    clutter_stage_set_damaged_area 800 600 ⟨1, 1, 2, 2⟩ ⟨5, 5, 0, 10⟩ ≠
      (⟨1, 1, 2, 2⟩ : ClutterGeometry) := by
  decide

/-- Claim C6, amended: for every rectangle with non-positive width or height,
clutter_stage_set_damaged_area resets the pending damage rectangle to the
invalid rectangle {0,0,0,0}; the call leaves the pending rectangle unchanged
exactly when it was already the invalid rectangle. -/
theorem set_damaged_area_invalid_clears (w h : Int) (pend area : ClutterGeometry)
    (hinv : area.width ≤ 0 ∨ area.height ≤ 0) :
    clutter_stage_set_damaged_area w h pend area = geomZero ∧
    (clutter_stage_set_damaged_area w h pend area = pend ↔ pend = geomZero) := by
  have hz := set_damaged_area_of_invalid w h pend area hinv
  refine ⟨hz, ?_, ?_⟩
  · intro hp; rw [← hp, hz]
  · intro hp; rw [hz, hp]

/-- Claim C6 witness: the amended statement at pending {1,1,2,2} and the
zero-width input {5,5,0,10} on an 800x600 stage. -/
theorem set_damaged_area_invalid_clears_witness :
    ((⟨5, 5, 0, 10⟩ : ClutterGeometry).width ≤ 0 ∨
      (⟨5, 5, 0, 10⟩ : ClutterGeometry).height ≤ 0) ∧
    (clutter_stage_set_damaged_area 800 600 ⟨1, 1, 2, 2⟩ ⟨5, 5, 0, 10⟩ = geomZero ∧
     (clutter_stage_set_damaged_area 800 600 ⟨1, 1, 2, 2⟩ ⟨5, 5, 0, 10⟩ =
        ⟨1, 1, 2, 2⟩ ↔ (⟨1, 1, 2, 2⟩ : ClutterGeometry) = geomZero)) :=
  ⟨by decide,
   set_damaged_area_invalid_clears 800 600 ⟨1, 1, 2, 2⟩ ⟨5, 5, 0, 10⟩ (by decide)⟩

/-- Claim C7: passing a rectangle with non-positive width or height to
clutter_stage_set_damaged_area never fails: it is handled as a clear-damage
sentinel, resetting the pending damage rectangle to the invalid rectangle
{0,0,0,0} and returning before any clipping or merging (the result does not
depend on the stage size or on the previous pending rectangle). -/
theorem set_damaged_area_invalid_sentinel (w h : Int) (pend area : ClutterGeometry)
    (hinv : area.width ≤ 0 ∨ area.height ≤ 0) :
    clutter_stage_set_damaged_area w h pend area = geomZero :=
  set_damaged_area_of_invalid w h pend area hinv

/-- Claim C7 witness: a negative-width rectangle on a 100x100 stage with
pending {3,3,4,4} clears the pending damage. -/
theorem set_damaged_area_invalid_sentinel_witness :
    ((⟨0, 0, -1, 5⟩ : ClutterGeometry).width ≤ 0 ∨
      (⟨0, 0, -1, 5⟩ : ClutterGeometry).height ≤ 0) ∧
    clutter_stage_set_damaged_area 100 100 ⟨3, 3, 4, 4⟩ ⟨0, 0, -1, 5⟩ = geomZero :=
  ⟨by decide,
   set_damaged_area_invalid_sentinel 100 100 ⟨3, 3, 4, 4⟩ ⟨0, 0, -1, 5⟩ (by decide)⟩

/-- Claim C3: for every sequence of clutter_stage_set_damaged_area calls
within one frame (starting from the invalid pending rectangle the frame
begins with) whose arguments clip to non-empty rectangles, the resulting
pending damage rectangle is the smallest axis-aligned rectangle enclosing
all of the clipped inputs: it contains every clipped input (never an
under-approximation), and any rectangle containing every clipped input
contains it. -/
theorem set_damaged_area_bounding_box (w h : Int) (r0 : ClutterGeometry)
    (rs : List ClutterGeometry)
    (hclips : ∀ r ∈ r0 :: rs, validG (clipToScreen w h r)) :
    (∀ r ∈ r0 :: rs,
      containsG ((r0 :: rs).foldl (clutter_stage_set_damaged_area w h) geomZero)
        (clipToScreen w h r)) ∧
    (∀ R : ClutterGeometry,
      (∀ r ∈ r0 :: rs, containsG R (clipToScreen w h r)) →
      containsG R ((r0 :: rs).foldl (clutter_stage_set_damaged_area w h) geomZero)) := by
  have hc0 : validG (clipToScreen w h r0) := hclips r0 (by simp)
  have hrest : ∀ x ∈ rs, validG (clipToScreen w h x) :=
    fun x hx => hclips x (by simp [hx])
  have hfirst : clutter_stage_set_damaged_area w h geomZero r0 =
      clipToScreen w h r0 :=
    set_damaged_area_invalid_pend w h geomZero r0 (Or.inl (by decide)) hc0
  rw [List.foldl_cons, hfirst]
  obtain ⟨_, icontp, icontall, ileast⟩ :=
    foldl_set_damaged_props w h rs (clipToScreen w h r0) hc0 hrest
  constructor
  · intro x hx
    rcases List.mem_cons.mp hx with hx0 | hx1
    · subst hx0; exact icontp
    · exact icontall x hx1
  · intro R hRall
    exact ileast R (hRall r0 (by simp)) (fun x hx => hRall x (List.mem_cons_of_mem _ hx))

/-- Claim C3 witness: on an 800x600 stage, damaging {10,10,50,50},
{100,100,20,20} and {-5,-5,10,10} in one frame yields the bounding box of
the three clipped rectangles. -/
theorem set_damaged_area_bounding_box_witness :
    (∀ r ∈ [⟨10, 10, 50, 50⟩, ⟨100, 100, 20, 20⟩, ⟨-5, -5, 10, 10⟩],
      validG (clipToScreen 800 600 r)) ∧
    ((∀ r ∈ ([⟨10, 10, 50, 50⟩, ⟨100, 100, 20, 20⟩, ⟨-5, -5, 10, 10⟩] :
        List ClutterGeometry),
      containsG
        (([⟨10, 10, 50, 50⟩, ⟨100, 100, 20, 20⟩, ⟨-5, -5, 10, 10⟩] :
            List ClutterGeometry).foldl
          (clutter_stage_set_damaged_area 800 600) geomZero)
        (clipToScreen 800 600 r)) ∧
    (∀ R : ClutterGeometry,
      (∀ r ∈ ([⟨10, 10, 50, 50⟩, ⟨100, 100, 20, 20⟩, ⟨-5, -5, 10, 10⟩] :
          List ClutterGeometry),
        containsG R (clipToScreen 800 600 r)) →
      containsG R
        (([⟨10, 10, 50, 50⟩, ⟨100, 100, 20, 20⟩, ⟨-5, -5, 10, 10⟩] :
            List ClutterGeometry).foldl
          (clutter_stage_set_damaged_area 800 600) geomZero))) :=
  ⟨by decide,
   set_damaged_area_bounding_box 800 600 ⟨10, 10, 50, 50⟩
     [⟨100, 100, 20, 20⟩, ⟨-5, -5, 10, 10⟩] (by decide)⟩

/-- Claim C5: whenever the pending damage rectangle covers the entire surface
of a stage with positive dimensions, the paint resolves to a full redraw
(update_area = false, so the scissor/clip setup is skipped), even when the
reported buffer age is 1 rather than 0. -/
theorem paint_full_cover_skips_clip (w h : Int) (age : Nat) (s : StageState)
    (hw : 0 < w) (hh : 0 < h) (hage : age ≤ 1)
    (hcov : coversSurface w h s.damaged_area) :
    (clutter_stage_paint w h age s).update_area = false := by
  rcases Nat.le_one_iff_eq_zero_or_eq_one.mp hage with h0 | h1
  · subst h0
    unfold clutter_stage_paint
    dsimp only
    rw [if_neg (by simp : ¬ ((0 : Nat) ≠ 0))]
    exact updateArea_of_covers w h _ hcov
  · subst h1
    unfold clutter_stage_paint
    dsimp only
    rw [if_pos (by simp : (1 : Nat) ≠ 0)]
    cases hd : s.damage_history with
    | nil =>
      rw [if_neg (by simp : ¬ (([] : List ClutterGeometry).length + 1 > 1))]
      exact updateArea_geomZero w h
    | cons d rest =>
      rw [if_pos (by simp : (d :: rest).length + 1 > 1)]
      dsimp only
      rw [damageMergeLoop_age_one w h s.damaged_area d rest]
      rcases set_damaged_area_cover_cases w h s.damaged_area d hw hh hcov with hc | hz
      · exact updateArea_of_covers w h _ hc
      · rw [hz]
        exact updateArea_geomZero w h

/-- Claim C5 witness: an 800x600 stage whose pending damage is the full
rectangle {0,0,800,600}, with one past-frame entry and buffer age 1, does a
full redraw. -/
theorem paint_full_cover_skips_clip_witness :
    (0 : Int) < 800 ∧ (0 : Int) < 600 ∧ 1 ≤ 1 ∧
    coversSurface 800 600
      (⟨⟨0, 0, 800, 600⟩, [⟨100, 100, 20, 20⟩]⟩ : StageState).damaged_area ∧
    (clutter_stage_paint 800 600 1
      ⟨⟨0, 0, 800, 600⟩, [⟨100, 100, 20, 20⟩]⟩).update_area = false :=
  ⟨by decide, by decide, by decide, by decide,
   paint_full_cover_skips_clip 800 600 1 ⟨⟨0, 0, 800, 600⟩, [⟨100, 100, 20, 20⟩]⟩
     (by decide) (by decide) (by decide) (by decide)⟩

theorem runDamageCalls_scheduled (n : Nat) (s : SchedState)
    (hs : s.update_idle = true) : runDamageCalls n s = (s, 0) := by
  induction n with
  | zero => rfl
  | succ n ih =>
    unfold runDamageCalls clutter_stage_queue_redraw_damage
    rw [hs]
    simpa using ih

theorem runPostEvents_no_idle (k : Nat) :
    ∀ s : SchedState, s.update_idle = false →
    (runPostEvents s (List.replicate k PostEvent.dispatchIdle)).2 = 0 := by
  induction k with
  | zero => intro s _; rfl
  | succ k ih =>
    intro s hs
    rw [List.replicate_succ]
    unfold runPostEvents
    rw [hs]
    exact ih s hs

theorem runPostEvents_dead (evs : List PostEvent) :
    ∀ s : SchedState, s.in_destruction = true → s.update_idle = false →
    runPostEvents s evs = (s, 0) := by
  induction evs with
  | nil => intro s _ _; rfl
  | cons ev rest ih =>
    intro s hd hu
    cases ev with
    | queueRedraw =>
      have hq : clutter_stage_queue_redraw s = (s, false) := by
        unfold clutter_stage_queue_redraw
        rw [hd]
        rfl
      unfold runPostEvents
      rw [hq]
      exact ih s hd hu
    | dispatchIdle =>
      unfold runPostEvents
      rw [hu]
      exact ih s hd hu

/-- Claim C8: starting from an idle (unscheduled, unshaped) stage, any number
n of clutter_stage_queue_redraw_damage calls of at least 1 between two
render-loop executions creates exactly one deferred callback in total and
leaves one outstanding update_idle handle (calls made while a handle is
outstanding create nothing), and dispatching the event loop any number of
times afterwards invokes the render loop exactly once. -/
theorem queue_redraw_damage_coalesces (s : SchedState) (n k : Nat)
    (h1 : s.update_idle = false) (h2 : 1 ≤ n) (h3 : s.shaped_mode = 0)
    (hk : 1 ≤ k) :
    (runDamageCalls n s).2 = 1 ∧
    (runDamageCalls n s).1.update_idle = true ∧
    (runPostEvents (runDamageCalls n s).1
      (List.replicate k PostEvent.dispatchIdle)).2 = 1 := by
  obtain ⟨m, rfl⟩ : ∃ m, n = m + 1 := ⟨n - 1, by omega⟩
  have step1 : clutter_stage_queue_redraw_damage s =
      ({ s with update_idle := true }, true) := by
    unfold clutter_stage_queue_redraw_damage
    rw [h1]
    rfl
  have hrun : runDamageCalls (m + 1) s = ({ s with update_idle := true }, 1) := by
    unfold runDamageCalls
    rw [step1]
    dsimp only
    rw [runDamageCalls_scheduled m { s with update_idle := true } rfl]
    rfl
  rw [hrun]
  refine ⟨rfl, rfl, ?_⟩
  obtain ⟨j, rfl⟩ : ∃ j, k = j + 1 := ⟨k - 1, by omega⟩
  rw [List.replicate_succ]
  have hfire : redraw_update_idle { s with update_idle := true } =
      ({ s with update_idle := false }, true) := by
    unfold redraw_update_idle
    rw [if_neg]
    simpa using h3
  unfold runPostEvents
  rw [hfire]
  simpa using runPostEvents_no_idle j { s with update_idle := false } rfl

/-- Claim C8 witness: three queue_redraw_damage calls on an idle stage create
one callback, leave one outstanding handle, and two dispatch rounds run the
render loop exactly once. -/
theorem queue_redraw_damage_coalesces_witness :
    ((⟨false, false, 0, geomZero, ⟨0, 0, 800, 600⟩⟩ :
        SchedState).update_idle = false ∧
     (⟨false, false, 0, geomZero, ⟨0, 0, 800, 600⟩⟩ :
        SchedState).shaped_mode = 0) ∧
    ((runDamageCalls 3 ⟨false, false, 0, geomZero, ⟨0, 0, 800, 600⟩⟩).2 = 1 ∧
     (runDamageCalls 3
        ⟨false, false, 0, geomZero, ⟨0, 0, 800, 600⟩⟩).1.update_idle = true ∧
     (runPostEvents
        (runDamageCalls 3 ⟨false, false, 0, geomZero, ⟨0, 0, 800, 600⟩⟩).1
        (List.replicate 2 PostEvent.dispatchIdle)).2 = 1) :=
  ⟨⟨by decide, by decide⟩,
   queue_redraw_damage_coalesces ⟨false, false, 0, geomZero, ⟨0, 0, 800, 600⟩⟩
     3 2 (by decide) (by decide) (by decide) (by decide)⟩

/-- Claim C9: disposing a stage that has a repaint callback scheduled cancels
the outstanding update_idle handle during teardown, afterwards no sequence of
queue_redraw calls and event-loop dispatches ever runs the render loop
against the stage, and queueing a redraw on any stage already in destruction
schedules nothing (the call is a no-op). -/
theorem dispose_cancels_pending_redraw (s : SchedState)
    (_hs : s.update_idle = true) :
    (clutter_stage_dispose s).update_idle = false ∧
    (∀ evs : List PostEvent,
      (runPostEvents (clutter_stage_dispose s) evs).2 = 0) ∧
    (∀ t : SchedState, t.in_destruction = true →
      clutter_stage_queue_redraw t = (t, false)) := by
  refine ⟨rfl, ?_, ?_⟩
  · intro evs
    rw [runPostEvents_dead evs (clutter_stage_dispose s) rfl rfl]
  · intro t ht
    unfold clutter_stage_queue_redraw
    rw [ht]
    rfl

/-- Claim C9 witness: a stage with a scheduled repaint is disposed; the handle
is cancelled, a queue-redraw-then-dispatch sequence runs no render loop, and
queueing a redraw on an in-destruction stage is a no-op. -/
theorem dispose_cancels_pending_redraw_witness :
    (⟨true, false, 0, geomZero, ⟨0, 0, 800, 600⟩⟩ :
        SchedState).update_idle = true ∧
    ((clutter_stage_dispose
        ⟨true, false, 0, geomZero, ⟨0, 0, 800, 600⟩⟩).update_idle = false ∧
     (∀ evs : List PostEvent,
       (runPostEvents
         (clutter_stage_dispose ⟨true, false, 0, geomZero, ⟨0, 0, 800, 600⟩⟩)
         evs).2 = 0) ∧
     (∀ t : SchedState, t.in_destruction = true →
       clutter_stage_queue_redraw t = (t, false))) :=
  ⟨by decide,
   dispose_cancels_pending_redraw ⟨true, false, 0, geomZero, ⟨0, 0, 800, 600⟩⟩
     (by decide)⟩

theorem paint_db_of_single (w h : Int) (s : StageState)
    (hs : s.damage_history.length = 1) :
    ∃ r : PaintResult, clutter_stage_paint_db w h s = some r ∧
      r.state.damage_history = [r.resolved] ∧
      r.state.damage_history.length = 1 := by
  cases hl : s.damage_history with
  | nil => rw [hl] at hs; simp at hs
  | cons d rest =>
    rw [hl] at hs
    simp only [List.length_cons] at hs
    have hre : rest = [] := List.length_eq_zero.mp (by omega)
    subst hre
    refine ⟨⟨⟨geomZero, [clutter_stage_set_damaged_area w h s.damaged_area d]⟩,
      updateArea w h (clutter_stage_set_damaged_area w h s.damaged_area d),
      clutter_stage_set_damaged_area w h s.damaged_area d⟩, ?_, rfl, rfl⟩
    unfold clutter_stage_paint_db
    rw [hl]

/-- Claim C10: in the double-buffer fallback mode the damage history is
created at stage initialization already holding exactly one (invalid)
rectangle entry, every damage-relevant operation reachable from
initialization preserves the single-entry shape, and on every such state the
fallback paint is defined (no failing head access) and leaves the history as
exactly the one resolved rectangle of the frame. -/
theorem db_damage_history_single_entry (w h : Int) (s : StageState)
    (hr : ReachableDB w h s) :
    clutter_stage_init_db.damage_history = [geomZero] ∧
    s.damage_history.length = 1 ∧
    ∃ r : PaintResult, clutter_stage_paint_db w h s = some r ∧
      r.state.damage_history = [r.resolved] := by
  have hlen : s.damage_history.length = 1 := by
    induction hr with
    | init => rfl
    | set_damaged t area ht ih => exact ih
    | queue_full t g ht ih => exact ih
    | paint t r ht hp ih =>
      obtain ⟨r2, hr2, _, hlen2⟩ := paint_db_of_single w h t ih
      rw [hp] at hr2
      cases Option.some.inj hr2
      exact hlen2
  obtain ⟨r, hp1, hp2, _⟩ := paint_db_of_single w h s hlen
  exact ⟨rfl, hlen, r, hp1, hp2⟩

/-- Claim C10 witness: the initial fallback-mode state itself on an 800x600
stage (reachable by construction) has a one-entry history and a defined
fallback paint. -/
theorem db_damage_history_single_entry_witness :
    clutter_stage_init_db.damage_history = [geomZero] ∧
    clutter_stage_init_db.damage_history.length = 1 ∧
    ∃ r : PaintResult, clutter_stage_paint_db 800 600 clutter_stage_init_db = some r ∧
      r.state.damage_history = [r.resolved] :=
  db_damage_history_single_entry 800 600 clutter_stage_init_db ReachableDB.init

end Clutter
